import Mathlib

/-!
# Verification of the craby repository against its specification

This file shallowly embeds the JavaScript/TypeScript and Kotlin sources of
the craby repository (a React Native ↔ Rust module toolchain) and settles a
list of claims about it.

Embedded sources:
* the JS binding layer (`NativeModuleRegistry`, `prepareJNI`) that implements
  the Android JNI bootstrap handshake;
* the Kotlin `Package` template emitted by codegen and the hand-maintained
  `CrabyTestPackage.kt` example, both of which implement the host-side
  `getModule` hook of that handshake;
* the `crabygen` CLI entry point (`isCodegenCommand` dispatch) and its error
  handler (`withErrorHandler` / `commonErrorHandler`);
* the metro resolver factory (`createResolver`) with its process-wide
  resolver cache;
* the documented default build-target set and the documented naming /
  type-mapping conventions (the Rust implementations of the latter are not
  part of the repository snapshot, so they are modelled from the spec).
-/

namespace Craby

/-! ## The JS binding layer (`NativeModuleRegistry` / `prepareJNI`)

Source: the `craby-modules` binding file.  `prepareJNI` issues a
`TurboModuleRegistry.get` for a synthetic module name on Android only, and
`NativeModuleRegistry.get` / `getEnforcing` call it synchronously before the
real `TurboModuleRegistry` lookup. -/

/-- The host platform, as reported by `Platform.OS`. -/
inductive Platform
  | android
  | ios
  deriving DecidableEq, Repr

/-- The synthetic bootstrap module name derived from a module name:
`` `__craby${moduleName}_JNI_prepare__` `` in `prepareJNI`. -/
def jniPrepareName (moduleName : String) : String :=
  "__craby" ++ moduleName ++ "_JNI_prepare__"

/-- A registry event: one `TurboModuleRegistry` lookup issued by the binding
layer.  `bootstrap m` is the lookup of `jniPrepareName m` issued by
`prepareJNI` for module `m`; `real m` is the lookup of `m` itself. -/
inductive RegEv
  | bootstrap (m : String)
  | real (m : String)
  deriving DecidableEq, Repr

/-- The name a registry event actually looks up in `TurboModuleRegistry`. -/
def RegEv.lookupName : RegEv → String
  | .bootstrap m => jniPrepareName m
  | .real m => m

/-- `prepareJNI(moduleName)`: on platforms other than Android it returns
immediately; on Android it performs `TurboModuleRegistry.get` on the derived
synthetic name.  We record the lookups it issues, in order. -/
def prepareJNI (p : Platform) (moduleName : String) : List RegEv :=
  if p = Platform.android then [RegEv.bootstrap moduleName] else []

/-- Lookups issued by one `NativeModuleRegistry.get(moduleName)` call:
`prepareJNI(moduleName)` first, then the real `TurboModuleRegistry.get`. -/
def nmrGet (p : Platform) (moduleName : String) : List RegEv :=
  prepareJNI p moduleName ++ [RegEv.real moduleName]

/-- Lookups issued by one `NativeModuleRegistry.getEnforcing(moduleName)`
call: `prepareJNI(moduleName)` first, then the real
`TurboModuleRegistry.getEnforcing`. -/
def nmrGetEnforcing (p : Platform) (moduleName : String) : List RegEv :=
  prepareJNI p moduleName ++ [RegEv.real moduleName]

/-- One call made against `NativeModuleRegistry` during a process lifetime. -/
inductive RegistryCall
  | get (m : String)
  | getEnforcing (m : String)
  deriving DecidableEq, Repr

/-- The module name a registry call asks for. -/
def RegistryCall.moduleName : RegistryCall → String
  | .get m => m
  | .getEnforcing m => m

/-- The lookups issued by one registry call. -/
def registryCallEvents (p : Platform) : RegistryCall → List RegEv
  | .get m => nmrGet p m
  | .getEnforcing m => nmrGetEnforcing p m

/-- The full, ordered lookup trace of a sequence of registry calls within one
process lifetime (the binding layer is synchronous: each call's lookups are
emitted before the next call starts). -/
def processTrace (p : Platform) (calls : List RegistryCall) : List RegEv :=
  (calls.map (registryCallEvents p)).flatten

/-! ## Host-side `getModule` hooks (Kotlin)

Two implementations exist in the repository: the Kotlin `Package` template
emitted by codegen (with `{{ pascal_name }}` etc. placeholders) and the
hand-maintained `CrabyTestPackage.kt` of the craby-test example.  We model a
`getModule(name, reactContext)` invocation by its observable effects: the
list of `nativeSetDataPath` calls it makes (each carrying
`reactContext.filesDir.absolutePath`) and the module it returns. -/

/-- Result of one `getModule` invocation: the arguments of the
`nativeSetDataPath` calls it performed, and the returned module
(`none` = Kotlin `null`). -/
structure GetModuleResult where
  setDataPathCalls : List String
  returned : Option Unit
  deriving DecidableEq, Repr

/-- The bootstrap module name registered by the codegen Kotlin template:
`const val JNI_PREPARE_MODULE_NAME = "__crabyUnknown_JNI_prepare__"`.
Note: the template hardcodes `Unknown`; it does not interpolate the module
name. -/
def templateJniPrepareModuleName : String :=
  "__crabyUnknown_JNI_prepare__"

/-- The module names the codegen Kotlin template's
`getReactModuleInfoProvider` puts into `moduleInfos` (exactly one entry,
keyed by `JNI_PREPARE_MODULE_NAME`). -/
def templateRegisteredModuleNames : List String :=
  [templateJniPrepareModuleName]

/-- The codegen Kotlin template's `getModule(name, reactContext)`: it calls
`nativeSetDataPath(reactContext.filesDir.absolutePath)` unconditionally and
returns `null`, whatever `name` is. -/
def templateGetModule (_name : String) (filesDir : String) : GetModuleResult :=
  { setDataPathCalls := [filesDir], returned := none }

/-- The bootstrap module names registered by the craby-test example package:
`val JNI_PREPARE_MODULE_NAME = setOf("__crabyCalculator_JNI_prepare__",
"__crabyCrabyTest_JNI_prepare__")`, each of which is also put into
`moduleInfos` by `getReactModuleInfoProvider`. -/
def crabyTestJniPrepareModuleNames : List String :=
  ["__crabyCalculator_JNI_prepare__", "__crabyCrabyTest_JNI_prepare__"]

/-- The craby-test example package's `getModule(name, reactContext)`: it
calls `nativeSetDataPath(reactContext.filesDir.absolutePath)` iff
`name in JNI_PREPARE_MODULE_NAME`, and returns `null` in every case. -/
def crabyTestGetModule (name : String) (filesDir : String) : GetModuleResult :=
  { setDataPathCalls :=
      if name ∈ crabyTestJniPrepareModuleNames then [filesDir] else []
    returned := none }

/-! ## The crabygen CLI entry point and error handler

Source: `packages/crabygen/src/cli.ts` and
`packages/crabygen/src/utils/errors.ts`. -/

/-- A JavaScript thrown value, as discriminated by
`reason instanceof Error`: either an `Error` carrying a message, or any
other value. -/
inductive JsThrown
  | err (message : String)
  | nonError
  deriving DecidableEq, Repr

/-- Observable outcome of a CLI action run under the error handler: the
error messages printed via the bindings' `error(...)` and the process exit
code. -/
structure CliOutcome where
  messages : List String
  exitCode : Nat
  deriving DecidableEq, Repr

/-- `commonErrorHandler(reason)`: prints `reason.message` when the reason is
an `Error`, otherwise prints `"Unknown error"`, then calls
`process.exit(1)`. -/
def commonErrorHandler : JsThrown → CliOutcome
  | .err msg => { messages := [msg], exitCode := 1 }
  | .nonError => { messages := ["Unknown error"], exitCode := 1 }

/-- `withErrorHandler(action)` applied to an action run: if the action
returns normally nothing is printed and the process later exits normally
(exit code 0); if it throws, the thrown reason goes to
`commonErrorHandler`. -/
def withErrorHandler (action : Except JsThrown Unit) : CliOutcome :=
  match action with
  | Except.ok _ => { messages := [], exitCode := 0 }
  | Except.error reason => commonErrorHandler reason

/-- JS `String.prototype.startsWith`, on the character lists of the two
strings. -/
def strStartsWith (s pre : String) : Bool :=
  pre.toList.isPrefixOf s.toList

/-- `isCodegenCommand(argv)` from `cli.ts`: true when every argument after
the executable and script name starts with `-` (vacuously true for an empty
argument list). -/
def isCodegenCommand (argv : List String) : Bool :=
  (argv.drop 2).all (fun option => strStartsWith option "-")

/-- The argument vector `run` hands to `cli.parse`: when `isCodegenCommand`
holds, `[argv[0], argv[1], 'codegen', ...argv.slice(2)]`, otherwise `argv`
unchanged. -/
def cliParsedArgv (argv : List String) : List String :=
  if isCodegenCommand argv then
    argv.take 2 ++ "codegen" :: argv.drop 2
  else
    argv

/-- The commander parser (external collaborator, specified at its
interface): given a full argument vector it dispatches the subcommand named
by element 2, passing it the remaining arguments; with no element 2 it
prints help and dispatches nothing. -/
def dispatchedCommand (argv : List String) : Option (String × List String) :=
  match cliParsedArgv argv with
  | _ :: _ :: c :: rest => some (c, rest)
  | _ => none

/-! ## Default build targets

Source: `docs/guide/build.md` ("By default, this builds for") together with
the per-family architecture tables.  The build orchestrator itself lives in
the Rust `@craby/cli-bindings`, outside this snapshot; the documented
default target set is the repository's record of it. -/

/-- Default iOS build target triples. -/
def iosBuildTargets : List String :=
  ["aarch64-apple-ios", "aarch64-apple-ios-sim"]

/-- Default Android build target triples. -/
def androidBuildTargets : List String :=
  ["aarch64-linux-android", "armv7-linux-androideabi",
   "i686-linux-android", "x86_64-linux-android"]

/-- The default build target set: platform families paired with their
target triples. -/
def defaultBuildTargets : List (String × List String) :=
  [("ios", iosBuildTargets), ("android", androidBuildTargets)]

/-! ## Naming conversion and primitive type mapping

The Rust implementation of the naming converter and type mapper is not part
of this snapshot; both are modelled from the spec and the documented
conversion tables in `docs/guide/module-definition.md`. -/

/-- Modelled from the spec: a word boundary of the naming converter — a
case boundary (lower-case letter followed by an upper-case letter) or a
digit/letter boundary, the split points of `toSnake`. -/
def segmentBoundary (prev cur : Char) : Bool :=
  (prev.isLower && cur.isUpper) ||
  (prev.isDigit && cur.isAlpha) ||
  (prev.isAlpha && cur.isDigit)

/-- Modelled from the spec: the character scan of `toSnake` — lower-case
every character and insert `_` at each segment boundary. -/
def snakeGo : Char → List Char → List Char
  | prev, [] => [prev.toLower]
  | prev, c :: cs =>
    if segmentBoundary prev c then
      prev.toLower :: '_' :: snakeGo c cs
    else
      prev.toLower :: snakeGo c cs

/-- Modelled from the spec: `toSnake` of the naming converter (not in this
snapshot; it lives in the Rust bindings): split a lower-camel-case
identifier on case boundaries and digit/letter boundaries, lower-case each
segment, join with `_`. -/
def toSnake (s : String) : String :=
  match s.toList with
  | [] => ""
  | c :: cs => String.mk (snakeGo c cs)

/-- A primitive type of the TypeScript module spec. -/
inductive TsPrimitive
  | number
  | string
  | boolean
  | void
  deriving DecidableEq, Repr

/-- A generated Rust-side primitive type, as shown in the documentation's
generated-trait examples (`Number`, `String`, `Bool`, `Void`); `string` is
the target language's text-string type. -/
inductive TargetType
  | number
  | string
  | bool
  | void
  deriving DecidableEq, Repr

/-- Modelled from the spec: the type mapper's action on primitives (the
mapper itself lives in the Rust bindings): each TypeScript primitive maps
to the corresponding target primitive per the documented table. -/
def mapPrimitive : TsPrimitive → TargetType
  | .number => .number
  | .string => .string
  | .boolean => .bool
  | .void => .void

/-! ## The metro resolver factory and its process-wide cache

Source: the `resolver.ts` of the basic-module example
(`createResolver` / `createResolverImpl`).  The filesystem resolution
performed by `oxc-resolver`'s `ResolverFactory(...).sync` is an external
collaborator; it is modelled as an oracle mapping a resolver configuration,
a directory and a request to an optional resolved path.  Node's
`path.dirname` and `path.join` are modelled for ordinary `/`-separated
paths. -/

/-- `path.join(a, b)` for the ordinary two-segment uses in this code. -/
def pathJoin (a b : String) : String :=
  a ++ "/" ++ b

/-- `path.dirname(p)` for ordinary `/`-separated paths: drop everything
after the last separator; a path with no separator has dirname `"."`. -/
def dirname (p : String) : String :=
  match (p.toList.reverse.dropWhile (fun c => c ≠ '/')) with
  | [] => "."
  | _ :: rest => String.mk rest.reverse

/-- `CreateResolverOptions`: `rootPath` plus optional
`singletonModules`. -/
structure CreateResolverOptions where
  rootPath : String
  singletonModules : Option (List String) := none
  deriving DecidableEq, Repr

/-- `CustomResolutionContext`: the fields this code reads (`sourceExts`,
`originModulePath`, `preferNativePlatform`; the optional boolean is modelled
by its truthiness). -/
structure CustomResolutionContext where
  sourceExts : List String
  originModulePath : String
  preferNativePlatform : Bool
  deriving DecidableEq, Repr

/-- The configuration handed to `new ResolverFactory({...})`. -/
structure ResolverConfig where
  extensions : List String
  conditionNames : List String
  mainFields : List String
  mainFiles : List String
  modules : List String
  deriving DecidableEq, Repr

/-- `DEFAULT_SINGLETON_MODULES`. -/
def defaultSingletonModules : List String :=
  ["react", "react-native"]

/-- The `finalExtensions` computation of `createResolverImpl`: base
extensions are the context's `sourceExts` each prefixed with `.`; when
`preferNativePlatform` holds, `.native`-variants of the base extensions are
prepended; when a platform is given, platform-variants of the base
extensions are prepended in front of everything. -/
def mkFinalExtensions (context : CustomResolutionContext)
    (platform : Option String) : List String :=
  let baseExtensions := context.sourceExts.map (fun extension => "." ++ extension)
  let afterNative :=
    if context.preferNativePlatform then
      baseExtensions.map (fun extension => ".native" ++ extension) ++ baseExtensions
    else
      baseExtensions
  match platform with
  | some p => baseExtensions.map (fun extension => "." ++ p ++ extension) ++ afterNative
  | none => afterNative

/-- The data captured by the closure `createResolverImpl` returns: the
singleton module list, the `ResolverFactory` configuration, the captured
`rootPath`, and the creation-time context's `originModulePath` (referenced
by `resolveSync`'s error message, which closes over the outer `context`). -/
structure ResolverImpl where
  singletonModules : List String
  config : ResolverConfig
  rootPath : String
  creationOriginModulePath : String
  deriving DecidableEq, Repr

/-- The body of `createResolverImpl(context, platform, rootPath)` up to the
returned closure (reading `singletonModules` from the enclosing
`createResolver`'s options). -/
def createResolverImpl (options : CreateResolverOptions)
    (context : CustomResolutionContext) (platform : Option String)
    (rootPath : String) : ResolverImpl :=
  { singletonModules := options.singletonModules.getD defaultSingletonModules
    config :=
      { extensions := mkFinalExtensions context platform
        conditionNames := ["react-native", "require", "node", "default"]
        mainFields := ["react-native", "browser", "main"]
        mainFiles := ["index"]
        modules := ["node_modules", pathJoin rootPath "src"] }
    rootPath := rootPath
    creationOriginModulePath := context.originModulePath }

/-- A metro resolution result; this code only ever produces
`{ type: 'sourceFile', filePath }`. -/
structure Resolution where
  filePath : String
  deriving DecidableEq, Repr

/-- An oracle standing in for `oxc-resolver`'s
`new ResolverFactory(config).sync(dir, request).path`. -/
abbrev FsResolve := ResolverConfig → String → String → Option String

/-- `resolveSync(resolveDir, request)` of the impl closure: ask the factory;
`null` becomes a thrown `Error` whose message names the request and the
creation-time context's `originModulePath`. -/
def resolveSync (fsResolve : FsResolve) (impl : ResolverImpl)
    (resolveDir request : String) : Except String String :=
  match fsResolve impl.config resolveDir request with
  | some p => Except.ok p
  | none =>
    Except.error
      ("Failed to resolve " ++ request ++ " from " ++ impl.creationOriginModulePath)

/-- The inner `resolve(context, request)` closure: singleton modules resolve
from the captured `rootPath`; everything else resolves from the directory of
the invocation context's `originModulePath`. -/
def implResolve (fsResolve : FsResolve) (impl : ResolverImpl)
    (context : CustomResolutionContext) (request : String) :
    Except String Resolution :=
  if impl.singletonModules.contains request then
    (resolveSync fsResolve impl impl.rootPath request).map (fun p => ⟨p⟩)
  else
    (resolveSync fsResolve impl (dirname context.originModulePath) request).map
      (fun p => ⟨p⟩)

/-- The module-level `const resolvers = new Map()` — a process-wide map from
platform (`string | null`) to the cached impl closure, shared by every
resolver `createResolver` returns. -/
abbrev ResolverCache := List (Option String × ResolverImpl)

/-- Lookup in the process-wide resolver cache (`resolvers.get(platform)`). -/
def lookupCache (st : ResolverCache) (platform : Option String) :
    Option ResolverImpl :=
  match st with
  | [] => none
  | (q, impl) :: rest => if q = platform then some impl else lookupCache rest platform

/-- One call of the function `createResolver(options)` returns, threading
the process-wide cache: on a miss, build the impl from this call's context
and `options.rootPath`, store it under the platform key, and invoke it; on a
hit, invoke the cached impl. -/
def resolveCall (fsResolve : FsResolve) (options : CreateResolverOptions)
    (st : ResolverCache) (context : CustomResolutionContext)
    (request : String) (platform : Option String) :
    Except String Resolution × ResolverCache :=
  match lookupCache st platform with
  | some impl => (implResolve fsResolve impl context request, st)
  | none =>
    let impl := createResolverImpl options context platform options.rootPath
    (implResolve fsResolve impl context request, (platform, impl) :: st)

/-- Lookup in a cache keyed as the spec describes it (see
`specKeyedResolveCall`). -/
def lookupSpecCache
    (st : List ((Option String × CreateResolverOptions) × ResolverImpl))
    (key : Option String × CreateResolverOptions) : Option ResolverImpl :=
  match st with
  | [] => none
  | (q, impl) :: rest => if q = key then some impl else lookupSpecCache rest key

/-- Modelled from the spec, for comparison with the source's cache only: the
spec describes the process-wide cache as "keyed by (platform family,
resolved module-discovery function)", each entry "populated lazily on first
use per key"; the discovery function is identified by the
`CreateResolverOptions` closure that created it, and an entry is built from
the first call carrying its key, exactly as the source builds one on a
cache miss. -/
def specKeyedResolveCall (fsResolve : FsResolve)
    (options : CreateResolverOptions)
    (st : List ((Option String × CreateResolverOptions) × ResolverImpl))
    (context : CustomResolutionContext) (request : String)
    (platform : Option String) :
    Except String Resolution ×
      List ((Option String × CreateResolverOptions) × ResolverImpl) :=
  match lookupSpecCache st (platform, options) with
  | some impl => (implResolve fsResolve impl context request, st)
  | none =>
    let impl := createResolverImpl options context platform options.rootPath
    (implResolve fsResolve impl context request,
      ((platform, options), impl) :: st)

/-! ## Helper lemmas -/

/-- On Android, every registry call emits exactly a bootstrap lookup followed
by the real lookup for its module name. -/
theorem registryCallEvents_android_eq (c : RegistryCall) :
    registryCallEvents Platform.android c =
      [RegEv.bootstrap c.moduleName, RegEv.real c.moduleName] := by
  cases c <;> rfl

/-- A process trace decomposes call by call. -/
theorem processTrace_cons (p : Platform) (c : RegistryCall)
    (cs : List RegistryCall) :
    processTrace p (c :: cs) = registryCallEvents p c ++ processTrace p cs := by
  simp [processTrace]

/-! ## Claim theorems -/

/-- Claim C1: on Android, a `NativeModuleRegistry.get` or `getEnforcing`
call for module `m` issues the synthetic bootstrap lookup (of the derived
name `jniPrepareName m`) synchronously inside the same call, strictly before
the real `TurboModuleRegistry` lookup of `m`; the trace of a call is a fixed
two-element sequence independent of any prior state, so this holds on the
very first call after process start, with no background scheduling. -/
theorem android_get_bootstrap_before_real (m : String) :
    nmrGet Platform.android m = [RegEv.bootstrap m, RegEv.real m] ∧
    nmrGetEnforcing Platform.android m = [RegEv.bootstrap m, RegEv.real m] ∧
    (nmrGet Platform.android m).map RegEv.lookupName = [jniPrepareName m, m] ∧
    (nmrGetEnforcing Platform.android m).map RegEv.lookupName
      = [jniPrepareName m, m] ∧
    processTrace Platform.android [RegistryCall.get m]
      = [RegEv.bootstrap m, RegEv.real m] ∧
    processTrace Platform.android [RegistryCall.getEnforcing m]
      = [RegEv.bootstrap m, RegEv.real m] := by
  exact ⟨rfl, rfl, rfl, rfl, rfl, rfl⟩

/-- Counterexample to claim C2: the JS binding layer derives the bootstrap
lookup name `__crabyCrabyTest_JNI_prepare__` for the module `CrabyTest`, but
the codegen Kotlin template registers its bootstrap module only under the
fixed name `__crabyUnknown_JNI_prepare__`, so the derived lookup name is not
among the template's registered names. -/
theorem template_bootstrap_name_mismatch :
    jniPrepareName "CrabyTest" = "__crabyCrabyTest_JNI_prepare__" ∧
    templateRegisteredModuleNames = ["__crabyUnknown_JNI_prepare__"] ∧
    jniPrepareName "CrabyTest" ∉ templateRegisteredModuleNames := by
  decide

/-- Claim C2 (amended): the host-side registry looks up the synthetic name
`__craby<M>_JNI_prepare__`; the craby-test example package registers its
bootstrap modules under exactly the names derived for its two modules
(`Calculator`, `CrabyTest`), while the codegen Kotlin template registers one
bootstrap entry under the fixed name derived for the literal module name
`Unknown`, regardless of the module it is generated for. -/
theorem bootstrap_name_registration :
    crabyTestJniPrepareModuleNames
      = [jniPrepareName "Calculator", jniPrepareName "CrabyTest"] ∧
    templateRegisteredModuleNames = [jniPrepareName "Unknown"] := by
  decide

/-- Counterexample to claim C3: the codegen template's `getModule` forwards
the filesDir path via `nativeSetDataPath` even when invoked with the name
`Basic`, which is not the synthetic bootstrap name — the forwarding is not
performed "precisely in response to" a bootstrap lookup. -/
theorem template_forwards_for_any_name :
    (templateGetModule "Basic" "/data/user/0/app/files").setDataPathCalls
      = ["/data/user/0/app/files"] ∧
    "Basic" ≠ templateJniPrepareModuleName ∧
    "Basic" ∉ templateRegisteredModuleNames := by
  decide

/-- Claim C3 (amended): both `getModule` hooks return "no module" (`null`)
for every name, the synthetic bootstrap names included; the craby-test
example package forwards the filesDir path via `nativeSetDataPath` exactly
when the looked-up name is one of its synthetic bootstrap names, while the
codegen template forwards it on every invocation regardless of the name. -/
theorem getModule_forwarding (name filesDir : String) :
    (crabyTestGetModule name filesDir).returned = none ∧
    (templateGetModule name filesDir).returned = none ∧
    (templateGetModule name filesDir).setDataPathCalls = [filesDir] ∧
    ((crabyTestGetModule name filesDir).setDataPathCalls = [filesDir]
      ↔ name ∈ crabyTestJniPrepareModuleNames) ∧
    ((crabyTestGetModule name filesDir).setDataPathCalls = []
      ↔ name ∉ crabyTestJniPrepareModuleNames) := by
  by_cases h : name ∈ crabyTestJniPrepareModuleNames <;>
    simp [crabyTestGetModule, templateGetModule, h]

/-- Claim C4: on Android, with a fixed set of resolvable modules per process
lifetime (`env`), for any sequence of registry calls, if position `i` of the
lookup trace carries the first successful real resolution of module `M`
(`env M` holds and no earlier position is a successful real resolution of
`M`), then the trace strictly before `i` contains exactly one bootstrap
resolution for `M`. -/
theorem bootstrap_once_before_first_success
    (env : String → Bool) (calls : List RegistryCall) (M : String) (i : Nat)
    (hM : env M = true)
    (hi : (processTrace Platform.android calls).get? i = some (RegEv.real M))
    (hfirst : ∀ j, j < i →
      ¬((processTrace Platform.android calls).get? j = some (RegEv.real M) ∧
          env M = true)) :
    ((processTrace Platform.android calls).take i).count (RegEv.bootstrap M)
      = 1 := by
  induction calls generalizing i with
  | nil => simp [processTrace] at hi
  | cons c cs ih =>
    rw [processTrace_cons, registryCallEvents_android_eq] at hi hfirst ⊢
    by_cases hn : c.moduleName = M
    · match i with
      | 0 => simp at hi
      | 1 =>
        subst hn
        simp [List.count_cons]
      | (k + 2) =>
        exact absurd ⟨by simp [hn], hM⟩ (hfirst 1 (by omega))
    · match i with
      | 0 => simp at hi
      | 1 =>
        simp at hi
        exact absurd hi hn
      | (k + 2) =>
        have hi' : (processTrace Platform.android cs).get? k
            = some (RegEv.real M) := hi
        have hfirst' : ∀ j, j < k →
            ¬((processTrace Platform.android cs).get? j
                = some (RegEv.real M) ∧ env M = true) :=
          fun j hj => hfirst (j + 2) (by omega)
        have hcount := ih k hi' hfirst'
        simpa [List.count_cons, hn] using hcount

/-- Witness for claim C4: a single successful `get` for module `Basic`
(registered in the environment) has its first successful real resolution at
trace position 1, preceded by exactly one bootstrap resolution. -/
theorem bootstrap_once_before_first_success_witness :
    ((processTrace Platform.android [RegistryCall.get "Basic"]).take 1).count
      (RegEv.bootstrap "Basic") = 1 :=
  bootstrap_once_before_first_success (fun m => m == "Basic")
    [RegistryCall.get "Basic"] "Basic" 1 (by decide) (by decide)
    (by decide)

/-- Claim C5: an action run under `withErrorHandler` that returns normally
prints no error and the process exits 0; an action that throws any value
causes exactly one human-readable message (the `Error`'s own message, or
`"Unknown error"` for a non-`Error` value) and a nonzero exit code — no
thrown error is downgraded to a warning or swallowed. -/
theorem cli_error_handler_exit_codes :
    withErrorHandler (Except.ok ()) = { messages := [], exitCode := 0 } ∧
    (∀ msg, withErrorHandler (Except.error (JsThrown.err msg))
      = { messages := [msg], exitCode := 1 }) ∧
    withErrorHandler (Except.error JsThrown.nonError)
      = { messages := ["Unknown error"], exitCode := 1 } ∧
    (∀ reason, (withErrorHandler (Except.error reason)).messages.length = 1 ∧
      (withErrorHandler (Except.error reason)).exitCode ≠ 0) := by
  refine ⟨rfl, fun msg => rfl, rfl, fun reason => ?_⟩
  cases reason <;> simp [withErrorHandler, commonErrorHandler]

/-- Counterexample to claim C6: the source's cache is keyed by platform
alone, not by (platform family, resolved module-discovery function).  After
a resolver created with `rootPath = "/projA"` populates the `"android"`
entry, a resolver created with `rootPath = "/projB"` — a distinct discovery
function, hence a fresh key under the claim — reuses the `/projA` entry and
resolves the singleton `react` to `/projA/react`, whereas the cache the
claim describes would build a `/projB` entry on the first call with its key
and resolve to `/projB/react`. -/
theorem resolver_cache_key_counterexample :
    (resolveCall (fun _ dir req => some (dir ++ "/" ++ req))
        { rootPath := "/projB" }
        (resolveCall (fun _ dir req => some (dir ++ "/" ++ req))
          { rootPath := "/projA" } []
          { sourceExts := ["ts"], originModulePath := "/projB/index.ts",
            preferNativePlatform := false }
          "react" (some "android")).2
        { sourceExts := ["ts"], originModulePath := "/projB/index.ts",
          preferNativePlatform := false }
        "react" (some "android")).1
      = Except.ok { filePath := "/projA/react" } ∧
    (specKeyedResolveCall (fun _ dir req => some (dir ++ "/" ++ req))
        { rootPath := "/projB" }
        (specKeyedResolveCall (fun _ dir req => some (dir ++ "/" ++ req))
          { rootPath := "/projA" } []
          { sourceExts := ["ts"], originModulePath := "/projB/index.ts",
            preferNativePlatform := false }
          "react" (some "android")).2
        { sourceExts := ["ts"], originModulePath := "/projB/index.ts",
          preferNativePlatform := false }
        "react" (some "android")).1
      = Except.ok { filePath := "/projB/react" } ∧
    (Except.ok { filePath := "/projA/react" } : Except String Resolution)
      ≠ Except.ok { filePath := "/projB/react" } := by
  refine ⟨rfl, rfl, ?_⟩
  intro h
  simp only [Except.ok.injEq, Resolution.mk.injEq] at h
  exact absurd h (by decide)

/-- Claim C6 (amended): the process-wide resolver cache is keyed by the
platform alone; for every platform key, the entry is created lazily on the
first call with that platform (from that call's context and the options of
whichever resolver handled it), every later call with the same platform
reuses that entry — even a call from a different `createResolver` instance —
and no entry is ever invalidated or removed within a run. -/
theorem resolver_cache_platform_keyed
    (f : FsResolve) (o : CreateResolverOptions) (st : ResolverCache)
    (ctx : CustomResolutionContext) (req : String) (p : Option String) :
    (∀ impl, lookupCache st p = some impl →
      resolveCall f o st ctx req p = (implResolve f impl ctx req, st)) ∧
    (lookupCache st p = none →
      resolveCall f o st ctx req p
        = (implResolve f (createResolverImpl o ctx p o.rootPath) ctx req,
            (p, createResolverImpl o ctx p o.rootPath) :: st)) ∧
    (∀ q impl, lookupCache st q = some impl →
      lookupCache (resolveCall f o st ctx req p).2 q = some impl) := by
  refine ⟨?_, ?_, ?_⟩
  · intro impl h
    simp [resolveCall, h]
  · intro h
    simp [resolveCall, h]
  · intro q impl h
    cases hh : lookupCache st p with
    | some impl2 => simp [resolveCall, hh, h]
    | none =>
      have hqp : p ≠ q := by
        intro e
        rw [e, h] at hh
        cases hh
      simp [resolveCall, hh, lookupCache, hqp, h]

/-- Witness for claim C6 (amended): a call from a `/projB`-rooted resolver
on a cache whose `"android"` entry was built by a `/projA`-rooted resolver
reuses that entry and leaves the cache unchanged. -/
theorem resolver_cache_platform_keyed_witness :
    resolveCall (fun _ dir req => some (dir ++ "/" ++ req))
        { rootPath := "/projB" }
        [(some "android",
          createResolverImpl { rootPath := "/projA" }
            { sourceExts := ["ts"], originModulePath := "/projA/index.ts",
              preferNativePlatform := false }
            (some "android") "/projA")]
        { sourceExts := ["ts"], originModulePath := "/projB/index.ts",
          preferNativePlatform := false }
        "react" (some "android")
      = (implResolve (fun _ dir req => some (dir ++ "/" ++ req))
          (createResolverImpl { rootPath := "/projA" }
            { sourceExts := ["ts"], originModulePath := "/projA/index.ts",
              preferNativePlatform := false }
            (some "android") "/projA")
          { sourceExts := ["ts"], originModulePath := "/projB/index.ts",
            preferNativePlatform := false }
          "react",
        [(some "android",
          createResolverImpl { rootPath := "/projA" }
            { sourceExts := ["ts"], originModulePath := "/projA/index.ts",
              preferNativePlatform := false }
            (some "android") "/projA")]) :=
  (resolver_cache_platform_keyed _ _ _ _ _ _).1 _ rfl

/-- Claim C7: the default build target set has exactly two platform
families — one with exactly the two triples `aarch64-apple-ios` and
`aarch64-apple-ios-sim`, the other with exactly the four triples
`aarch64-linux-android`, `armv7-linux-androideabi`, `i686-linux-android`
and `x86_64-linux-android`. -/
theorem default_build_target_set :
    defaultBuildTargets
      = [("ios", ["aarch64-apple-ios", "aarch64-apple-ios-sim"]),
         ("android", ["aarch64-linux-android", "armv7-linux-androideabi",
                      "i686-linux-android", "x86_64-linux-android"])] ∧
    defaultBuildTargets.length = 2 ∧
    iosBuildTargets.length = 2 ∧
    androidBuildTargets.length = 4 := by
  decide

/-- Claim C8: for the spec method `getUserName(userId: number): string`,
the naming conversion yields the method identifier `get_user_name` and the
parameter identifier `user_id`, and the return type `string` maps to the
target language's text-string type. -/
theorem naming_scenario_getUserName :
    toSnake "getUserName" = "get_user_name" ∧
    toSnake "userId" = "user_id" ∧
    mapPrimitive TsPrimitive.string = TargetType.string := by
  decide

/-- Claim C9: for every argument vector (with its executable and script
entries) in which all later arguments begin with `-` — the empty argument
list included — the CLI entry point dispatches the `codegen` subcommand
with exactly those arguments. -/
theorem cli_default_dispatch (argv : List String)
    (hlen : 2 ≤ argv.length)
    (h : ∀ a ∈ argv.drop 2, strStartsWith a "-" = true) :
    dispatchedCommand argv = some ("codegen", argv.drop 2) := by
  have hc : isCodegenCommand argv = true := by
    simpa [isCodegenCommand, List.all_eq_true] using h
  rcases argv with _ | ⟨a, _ | ⟨b, rest⟩⟩
  · simp at hlen
  · simp at hlen
  · simp [dispatchedCommand, cliParsedArgv, hc]

/-- Witness for claim C9: `node crabygen --no-overwrite` dispatches
`codegen` with `--no-overwrite`; `node crabygen` dispatches `codegen` with
no arguments. -/
theorem cli_default_dispatch_witness :
    dispatchedCommand ["node", "crabygen", "--no-overwrite"]
        = some ("codegen", ["--no-overwrite"]) ∧
    dispatchedCommand ["node", "crabygen"] = some ("codegen", []) :=
  ⟨cli_default_dispatch ["node", "crabygen", "--no-overwrite"] (by decide)
      (by decide),
    cli_default_dispatch ["node", "crabygen"] (by decide) (by decide)⟩

/-- Claim C10: once a platform has a cached resolver, a call for that
platform depends on its resolution context only through
`originModulePath`: two calls with the same platform, request and origin
module path — but arbitrary `sourceExts` and `preferNativePlatform`, and
even different `createResolver` options — produce the same result and leave
the cache unchanged; the cached entry itself was built solely from the
first call's context (see the miss case of the cache). -/
theorem resolver_cache_hit_ignores_context
    (f : FsResolve) (o₁ o₂ : CreateResolverOptions) (st : ResolverCache)
    (ctx₁ ctx₂ : CustomResolutionContext) (req : String) (p : Option String)
    (impl : ResolverImpl)
    (hhit : lookupCache st p = some impl)
    (horigin : ctx₁.originModulePath = ctx₂.originModulePath) :
    (resolveCall f o₁ st ctx₁ req p).1 = (resolveCall f o₂ st ctx₂ req p).1 ∧
    (resolveCall f o₁ st ctx₁ req p).2 = st ∧
    (resolveCall f o₂ st ctx₂ req p).2 = st := by
  refine ⟨?_, ?_, ?_⟩
  · simp [resolveCall, hhit, implResolve, horigin]
  · simp [resolveCall, hhit]
  · simp [resolveCall, hhit]

/-- Witness for claim C10: with the `"android"` entry cached, two calls
whose contexts differ in `sourceExts` and `preferNativePlatform` (and whose
options differ) but share the origin module path resolve identically and
leave the cache unchanged. -/
theorem resolver_cache_hit_ignores_context_witness :
    (resolveCall (fun _ dir req => some (dir ++ "/" ++ req))
        { rootPath := "/projA" }
        [(some "android",
          createResolverImpl { rootPath := "/projA" }
            { sourceExts := ["ts"], originModulePath := "/projA/index.ts",
              preferNativePlatform := false }
            (some "android") "/projA")]
        { sourceExts := ["ts"], originModulePath := "/app/a.ts",
          preferNativePlatform := false }
        "./util" (some "android")).1
      = (resolveCall (fun _ dir req => some (dir ++ "/" ++ req))
          { rootPath := "/other" }
          [(some "android",
            createResolverImpl { rootPath := "/projA" }
              { sourceExts := ["ts"], originModulePath := "/projA/index.ts",
                preferNativePlatform := false }
              (some "android") "/projA")]
          { sourceExts := ["js", "tsx"], originModulePath := "/app/a.ts",
            preferNativePlatform := true }
          "./util" (some "android")).1 ∧
    (resolveCall (fun _ dir req => some (dir ++ "/" ++ req))
        { rootPath := "/projA" }
        [(some "android",
          createResolverImpl { rootPath := "/projA" }
            { sourceExts := ["ts"], originModulePath := "/projA/index.ts",
              preferNativePlatform := false }
            (some "android") "/projA")]
        { sourceExts := ["ts"], originModulePath := "/app/a.ts",
          preferNativePlatform := false }
        "./util" (some "android")).2
      = [(some "android",
          createResolverImpl { rootPath := "/projA" }
            { sourceExts := ["ts"], originModulePath := "/projA/index.ts",
              preferNativePlatform := false }
            (some "android") "/projA")] ∧
    (resolveCall (fun _ dir req => some (dir ++ "/" ++ req))
        { rootPath := "/other" }
        [(some "android",
          createResolverImpl { rootPath := "/projA" }
            { sourceExts := ["ts"], originModulePath := "/projA/index.ts",
              preferNativePlatform := false }
            (some "android") "/projA")]
        { sourceExts := ["js", "tsx"], originModulePath := "/app/a.ts",
          preferNativePlatform := true }
        "./util" (some "android")).2
      = [(some "android",
          createResolverImpl { rootPath := "/projA" }
            { sourceExts := ["ts"], originModulePath := "/projA/index.ts",
              preferNativePlatform := false }
            (some "android") "/projA")] :=
  resolver_cache_hit_ignores_context
    (fun _ dir req => some (dir ++ "/" ++ req))
    { rootPath := "/projA" } { rootPath := "/other" }
    [(some "android",
      createResolverImpl { rootPath := "/projA" }
        { sourceExts := ["ts"], originModulePath := "/projA/index.ts",
          preferNativePlatform := false }
        (some "android") "/projA")]
    { sourceExts := ["ts"], originModulePath := "/app/a.ts",
      preferNativePlatform := false }
    { sourceExts := ["js", "tsx"], originModulePath := "/app/a.ts",
      preferNativePlatform := true }
    "./util" (some "android") _ rfl rfl

end Craby
